import Mathlib

/-!
Formal model of the HopHacks scavenger-hunt game engine.

Two SpacetimeDB module variants exist in the repository and both are embedded
here as pure functions over an explicit database state:

* `Hunt.Server`  — src/server/src/lib.rs: string-keyed games, tags, players and
  progress rows, a game lifecycle (setup / active / ended), claim handling and
  cascade deletion.  Reducers return `Result<(), String>`, modelled as
  `Except String DB` where the `ok` payload is the post-transaction state.  A
  panic inside a reducer (SpacetimeDB `insert` hitting a duplicate primary key)
  aborts the transaction; it is modelled as an `Except.error`, and the state is
  unchanged.
* `Hunt.Backend` — src/backend/src/lib.rs: numeric ids, per-player progress
  cursor rows (`next_required`), order-enforced scanning.  Reducers return
  unit, modelled as functions returning the new state; `try_insert(..).ok()`
  silently keeps the old state when the insert would violate a constraint.

Machine integers: `u32` counters wrap modulo 2^32 on increment (release-mode
Rust semantics), written explicitly; `u64` / `usize` ids are produced as
`length + 1` of the corresponding table, which cannot overflow at any
representable table size, and are modelled as `Nat`.
-/

namespace Hunt

namespace Server

structure Game where
  game_id : String
  status : String
  started_at : Option Int
  ended_at : Option Int
deriving DecidableEq

structure Tag where
  tag_id : String
  game_id : String
  is_active : Bool
  clue : Option String
  order_index : Option Int
deriving DecidableEq

structure Player where
  player_id : String
  name : String
  team : Option String
deriving DecidableEq

structure Progress where
  game_id : String
  player_id : String
  tag_id : String
  ts : Int
deriving DecidableEq

structure DB where
  games : List Game
  tags : List Tag
  players : List Player
  progress : List Progress
deriving DecidableEq

def emptyDB : DB := ⟨[], [], [], []⟩

/-- Reducer `create_game`: insert a fresh game in status `"setup"`, erroring
when the id is already taken. -/
def create_game (db : DB) (game_id : String) : Except String DB :=
  if (db.games.find? (fun g => g.game_id == game_id)).isSome then
    Except.error "Game with this ID already exists"
  else
    Except.ok { db with games := db.games ++ [⟨game_id, "setup", none, none⟩] }

/-- Reducer `start_game`: setup → active.  The source writes the hardcoded
timestamp `0` (`started_at: Some(0), // TODO: Use proper timestamp`); the
context timestamp `ts` is available but unused, exactly as in the source. -/
def start_game (db : DB) (game_id : String) (ts : Int) : Except String DB :=
  match db.games.find? (fun g => g.game_id == game_id) with
  | some game =>
    if game.status ≠ "setup" then Except.error "Game is not in setup status"
    else
      Except.ok { db with games := db.games.map (fun g =>
        if g.game_id == game.game_id then ⟨game.game_id, "active", some 0, game.ended_at⟩ else g) }
  | none => Except.error "Game not found"

/-- Reducer `end_game`: active → ended, again writing the hardcoded `0`. -/
def end_game (db : DB) (game_id : String) (ts : Int) : Except String DB :=
  match db.games.find? (fun g => g.game_id == game_id) with
  | some game =>
    if game.status ≠ "active" then Except.error "Game is not active"
    else
      Except.ok { db with games := db.games.map (fun g =>
        if g.game_id == game.game_id then ⟨game.game_id, "ended", game.started_at, some 0⟩ else g) }
  | none => Except.error "Game not found"

/-- Reducer `activate_tag`: upsert.  On an existing tag the optional fields are
merged with `Option::or` (`clue.or(existing_tag.clue)`), the remaining fields
come from `..existing_tag`; a missing tag is inserted fresh as active. -/
def activate_tag (db : DB) (game_id tag_id : String) (clue : Option String)
    (order_index : Option Int) : Except String DB :=
  if (db.games.find? (fun g => g.game_id == game_id)).isNone then
    Except.error "Game not found"
  else
    match db.tags.find? (fun t => t.tag_id == tag_id) with
    | some existing =>
      Except.ok { db with tags := db.tags.map (fun t =>
        if t.tag_id == existing.tag_id then
          ⟨existing.tag_id, existing.game_id, true, clue.or existing.clue,
            order_index.or existing.order_index⟩
        else t) }
    | none =>
      Except.ok { db with tags := db.tags ++ [⟨tag_id, game_id, true, clue, order_index⟩] }

/-- Reducer `upsert_player`. -/
def upsert_player (db : DB) (player_id name : String) (team : Option String) :
    Except String DB :=
  match db.players.find? (fun p => p.player_id == player_id) with
  | some existing =>
    Except.ok { db with players := db.players.map (fun p =>
      if p.player_id == existing.player_id then ⟨existing.player_id, name, team⟩ else p) }
  | none =>
    Except.ok { db with players := db.players ++ [⟨player_id, name, team⟩] }

/-- Reducer `claim_tag`.  The `progress` table's only primary key column is
`game_id`, so the final `insert` panics (aborting the transaction, modelled as
an error) whenever some progress row for this game already exists and the
exact `(game, player, tag)` triple does not.  The triple-exists case returns
`Ok(())` without writing.  The recorded timestamp is the hardcoded `0`. -/
def claim_tag (db : DB) (game_id player_id tag_id : String) (ts : Int) :
    Except String DB :=
  match db.games.find? (fun g => g.game_id == game_id) with
  | none => Except.error "Game not found"
  | some game =>
    if game.status ≠ "active" then Except.error "Game is not active"
    else
      match db.tags.find? (fun t => t.tag_id == tag_id) with
      | none => Except.error "Tag not found"
      | some tag =>
        if ¬ tag.is_active then Except.error "Tag is not active"
        else if tag.game_id ≠ game_id then Except.error "Tag does not belong to this game"
        else if (db.progress.find? (fun p => p.game_id == game_id)).isSome
            && (db.progress.find? (fun p =>
                  p.game_id == game_id && p.player_id == player_id && p.tag_id == tag_id)).isSome then
          Except.ok db
        else if (db.progress.find? (fun p => p.game_id == game_id)).isSome then
          Except.error "duplicate primary key in progress"
        else
          Except.ok { db with progress := db.progress ++ [⟨game_id, player_id, tag_id, 0⟩] }

/-- Reducer `delete_tag`: remove the progress rows of one tag, then the tag. -/
def delete_tag (db : DB) (game_id tag_id : String) : Except String DB :=
  match db.tags.find? (fun t => t.tag_id == tag_id) with
  | none => Except.error "Tag not found"
  | some tag =>
    if tag.game_id ≠ game_id then Except.error "Tag does not belong to this game"
    else
      let db1 : DB :=
        { db with progress := db.progress.filter (fun p =>
            !(p.game_id == game_id && p.tag_id == tag_id)) }
      let db2 : DB :=
        match db1.tags.find? (fun t => t.tag_id == tag_id) with
        | some tag2 => { db1 with tags := db1.tags.filter (fun t => t != tag2) }
        | none => db1
      Except.ok db2

/-- Reducer `delete_player`: remove one player's progress rows in one game. -/
def delete_player (db : DB) (game_id player_id : String) : Except String DB :=
  if (db.games.find? (fun g => g.game_id == game_id)).isNone then
    Except.error "Game not found"
  else
    Except.ok { db with progress := db.progress.filter (fun p =>
      !(p.game_id == game_id && p.player_id == player_id)) }

/-- Reducer `delete_progress`: remove a single progress row. -/
def delete_progress (db : DB) (game_id player_id tag_id : String) : Except String DB :=
  if ¬ (db.progress.any (fun p =>
      p.game_id == game_id && p.player_id == player_id && p.tag_id == tag_id)) then
    Except.error "Progress entry not found"
  else
    match db.progress.find? (fun p =>
        p.game_id == game_id && p.player_id == player_id && p.tag_id == tag_id) with
    | some pr => Except.ok { db with progress := db.progress.filter (fun p => p != pr) }
    | none => Except.ok db

/-- Reducer `delete_game_cascade`: progress rows, tags, the game row, then —
when requested — every player left with no progress row in any game. -/
def delete_game_cascade (db : DB) (game_id : String) (delete_orphan_players : Bool) :
    Except String DB :=
  if (db.games.find? (fun g => g.game_id == game_id)).isNone then
    Except.error "Game not found"
  else
    let db1 : DB := { db with progress := db.progress.filter (fun p => p.game_id != game_id) }
    let db2 : DB := { db1 with tags := db1.tags.filter (fun t => t.game_id != game_id) }
    let db3 : DB :=
      match db2.games.find? (fun g => g.game_id == game_id) with
      | some game => { db2 with games := db2.games.filter (fun g => g != game) }
      | none => db2
    let db4 : DB :=
      if delete_orphan_players then
        { db3 with players := db3.players.filter (fun pl =>
            db3.progress.any (fun p => p.player_id == pl.player_id)) }
      else db3
    Except.ok db4

/-- One invocation of any public reducer of the server module. -/
inductive Op where
  | createGame (game_id : String)
  | startGame (game_id : String) (ts : Int)
  | endGame (game_id : String) (ts : Int)
  | activateTag (game_id tag_id : String) (clue : Option String) (order_index : Option Int)
  | upsertPlayer (player_id name : String) (team : Option String)
  | claimTag (game_id player_id tag_id : String) (ts : Int)
  | deleteTag (game_id tag_id : String)
  | deletePlayer (game_id player_id : String)
  | deleteProgress (game_id player_id tag_id : String)
  | deleteGameCascade (game_id : String) (orph : Bool)

def exec (db : DB) : Op → Except String DB
  | .createGame gid => create_game db gid
  | .startGame gid ts => start_game db gid ts
  | .endGame gid ts => end_game db gid ts
  | .activateTag gid tid c oi => activate_tag db gid tid c oi
  | .upsertPlayer pid n t => upsert_player db pid n t
  | .claimTag gid pid tid ts => claim_tag db gid pid tid ts
  | .deleteTag gid tid => delete_tag db gid tid
  | .deletePlayer gid pid => delete_player db gid pid
  | .deleteProgress gid pid tid => delete_progress db gid pid tid
  | .deleteGameCascade gid orph => delete_game_cascade db gid orph

/-- A failed reducer rolls its transaction back: the state is kept. -/
def applyOp (db : DB) (op : Op) : DB :=
  match exec db op with
  | Except.ok db2 => db2
  | Except.error _ => db

/-- The state reached by a sequence of reducer calls on a fresh database. -/
def runOps (ops : List Op) : DB := ops.foldl applyOp emptyDB

end Server

namespace Backend

structure Game where
  game_id : Nat
  code : String
  name : String
  created_at : Nat
  is_active : Bool
deriving DecidableEq

structure Player where
  player_id : Nat
  display_name : String
  created_at : Nat
deriving DecidableEq

structure PlayerGame where
  player_game_id : Nat
  player_id : Nat
  game_id : Nat
  joined_at : Nat
  checkpoints_scanned : Nat
  last_scan_at : Option Nat
  next_required : Nat
deriving DecidableEq

structure Checkpoint where
  checkpoint_id : Nat
  game_id : Nat
  nfc_uid : String
  location_name : String
  order_index : Nat
  created_at : Nat
deriving DecidableEq

structure ScanEvent where
  scan_id : Nat
  game_id : Nat
  player_id : Nat
  checkpoint_id : Nat
  scanned_at : Nat
  client_token : String
deriving DecidableEq

structure DB where
  games : List Game
  players : List Player
  player_games : List PlayerGame
  checkpoints : List Checkpoint
  scan_events : List ScanEvent
deriving DecidableEq

def emptyDB : DB := ⟨[], [], [], [], []⟩

def u32Mod : Nat := 4294967296

/-- `format!("GAME{:04}", n)`: decimal digits of `n` zero-padded to width 4. -/
def pad4 (n : Nat) : String :=
  let s := Nat.repr n
  if s.length < 4 then String.mk (List.replicate (4 - s.length) '0') ++ s else s

/-- `generate_unique_code`: the code is computed from the current row count of
the game table (`count + 1`), not from a persistent counter. -/
def generate_unique_code (db : DB) : String :=
  "GAME" ++ pad4 (db.games.length + 1)

/-- The success condition of `try_insert` on the game table: fresh primary key
`game_id` and fresh `#[unique]` column `code`. -/
def gameInsertOk (games : List Game) (g : Game) : Bool :=
  games.all (fun g2 => g2.game_id != g.game_id && g2.code != g.code)

/-- Reducer `create_game` (backend): the next id is the row count plus one, the
code comes from `generate_unique_code`, and the result of `try_insert` is
discarded with `.ok()` — a constraint violation is silently swallowed. -/
def create_game (db : DB) (name : String) (ts : Nat) : DB :=
  let game : Game := ⟨db.games.length + 1, generate_unique_code db, name, ts, true⟩
  if gameInsertOk db.games game then { db with games := db.games ++ [game] } else db

/-- Reducer `register_checkpoint` (backend): silently rejects `order_index == 0`,
an unresolved game code, and any duplicate of `nfc_uid` or `order_index`
within the same game; otherwise inserts (again discarding insert errors). -/
def register_checkpoint (db : DB) (game_code nfc_uid location_name : String)
    (order_index : Nat) (ts : Nat) : DB :=
  if order_index = 0 then db
  else
    match db.games.find? (fun g => g.code == game_code) with
    | none => db
    | some game =>
      if db.checkpoints.any (fun cp =>
          cp.game_id == game.game_id && (cp.nfc_uid == nfc_uid || cp.order_index == order_index)) then
        db
      else
        let cp : Checkpoint :=
          ⟨db.checkpoints.length + 1, game.game_id, nfc_uid, location_name, order_index, ts⟩
        if db.checkpoints.all (fun c => c.checkpoint_id != cp.checkpoint_id) then
          { db with checkpoints := db.checkpoints ++ [cp] }
        else db

/-- Reducer `join_game` (backend). -/
def join_game (db : DB) (game_code display_name : String) (ts : Nat) : DB :=
  match db.games.find? (fun g => g.code == game_code) with
  | none => db
  | some game =>
    if ¬ game.is_active then db
    else
      let player : Player := ⟨db.players.length + 1, display_name, ts⟩
      if ¬ db.players.all (fun p => p.player_id != player.player_id) then db
      else
        let db1 : DB := { db with players := db.players ++ [player] }
        let pg : PlayerGame :=
          ⟨db1.player_games.length + 1, player.player_id, game.game_id, ts, 0, none, 1⟩
        if db1.player_games.all (fun x => x.player_game_id != pg.player_game_id) then
          { db1 with player_games := db1.player_games ++ [pg] }
        else db1

/-- Reducer `scan_checkpoint` (backend): resolves game, checkpoint and the
player's cursor row; enforces `order_index == next_required`; treats an
already-recorded scan as a silent no-op; otherwise inserts the scan event and
replaces the cursor row (delete by primary key, then reinsert) with
`checkpoints_scanned + 1`, `last_scan_at = ctx.timestamp` and
`next_required + 1` (u32 increments wrap modulo 2^32). -/
def scan_checkpoint (db : DB) (player_id : Nat) (game_code nfc_uid client_token : String)
    (ts : Nat) : DB :=
  match db.games.find? (fun g => g.code == game_code) with
  | none => db
  | some game =>
    if ¬ game.is_active then db
    else
      match db.checkpoints.find? (fun cp =>
          cp.game_id == game.game_id && cp.nfc_uid == nfc_uid) with
      | none => db
      | some checkpoint =>
        match db.player_games.find? (fun pg =>
            pg.player_id == player_id && pg.game_id == game.game_id) with
        | none => db
        | some player_game =>
          if checkpoint.order_index ≠ player_game.next_required then db
          else if db.scan_events.any (fun se =>
              se.game_id == game.game_id && se.player_id == player_id &&
                se.checkpoint_id == checkpoint.checkpoint_id) then
            db
          else
            let scan : ScanEvent :=
              ⟨db.scan_events.length + 1, game.game_id, player_id,
                checkpoint.checkpoint_id, ts, client_token⟩
            if ¬ db.scan_events.all (fun se => se.scan_id != scan.scan_id) then db
            else
              let db1 : DB := { db with scan_events := db.scan_events ++ [scan] }
              let updated : PlayerGame :=
                ⟨player_game.player_game_id, player_game.player_id, player_game.game_id,
                  player_game.joined_at, (player_game.checkpoints_scanned + 1) % u32Mod,
                  some ts, (player_game.next_required + 1) % u32Mod⟩
              let rest : List PlayerGame :=
                db1.player_games.filter (fun pg => pg.player_game_id != player_game.player_game_id)
              if rest.all (fun pg => pg.player_game_id != updated.player_game_id) then
                { db1 with player_games := rest ++ [updated] }
              else
                { db1 with player_games := rest }

/-- One invocation of any public reducer of the backend module. -/
inductive Op where
  | createGame (name : String) (ts : Nat)
  | registerCheckpoint (game_code nfc_uid location_name : String) (order_index ts : Nat)
  | joinGame (game_code display_name : String) (ts : Nat)
  | scanCheckpoint (player_id : Nat) (game_code nfc_uid client_token : String) (ts : Nat)

def applyOp (db : DB) : Op → DB
  | .createGame n ts => create_game db n ts
  | .registerCheckpoint gc uid ln oi ts => register_checkpoint db gc uid ln oi ts
  | .joinGame gc dn ts => join_game db gc dn ts
  | .scanCheckpoint pid gc uid tok ts => scan_checkpoint db pid gc uid tok ts

/-- The state reached by a sequence of reducer calls on a fresh database. -/
def runOps (ops : List Op) : DB := ops.foldl applyOp emptyDB

end Backend

/-! ### Concrete states used in counterexamples and witnesses -/

/-- Server state: an active game `"g"` with two active tags of order 1 and 2,
and no claim recorded yet. -/
def c1DB : Server.DB :=
  ⟨[⟨"g", "active", some 0, none⟩],
   [⟨"t1", "g", true, none, some 1⟩, ⟨"t2", "g", true, none, some 2⟩], [], []⟩

/-- Server state: a game still in setup. -/
def c9Setup : Server.DB := ⟨[⟨"g", "setup", none, none⟩], [], [], []⟩

/-- Server state: an active game with one active tag and no claims. -/
def c9Active : Server.DB :=
  ⟨[⟨"g", "active", some 0, none⟩], [⟨"t", "g", true, none, some 1⟩], [], []⟩

/-- Server state: a game in setup with one inactive tag carrying a clue and an
order index. -/
def c7DB : Server.DB :=
  ⟨[⟨"g", "setup", none, none⟩], [⟨"t", "g", false, some "old clue", some 3⟩], [], []⟩

/-- Backend state as left after the first of two created games was removed:
one game row whose code is `"GAME0002"`, row count 1. -/
def c8DB : Backend.DB := ⟨[⟨2, "GAME0002", "hunt2", 0, true⟩], [], [], [], []⟩

/-- Backend state with a single game whose `game_id` equals the next generated
id (row count + 1). -/
def c10DB : Backend.DB := ⟨[⟨2, "GAMEX", "old", 0, true⟩], [], [], [], []⟩

/-- The transitions the lifecycle claim allows for one game across one
operation: unchanged, setup → active, or active → ended. -/
def statusStep (a b : String) : Prop :=
  b = a ∨ (a = "setup" ∧ b = "active") ∨ (a = "active" ∧ b = "ended")

/-- Primary-key well-formedness of the server game table. -/
def GamesWF (db : Server.DB) : Prop :=
  db.games.Pairwise (fun a b => a.game_id ≠ b.game_id)

/-- The per-game uniqueness invariant of the backend checkpoint table: no two
checkpoints of one game share `nfc_uid` or `order_index`, and every
`order_index` is at least 1. -/
def CheckpointInv (cps : List Backend.Checkpoint) : Prop :=
  cps.Pairwise (fun a b => a.game_id = b.game_id →
    a.nfc_uid ≠ b.nfc_uid ∧ a.order_index ≠ b.order_index)
  ∧ ∀ c ∈ cps, 1 ≤ c.order_index


/-! ### Generic helper lemmas -/

/-- In a list whose entries have pairwise distinct keys, an entry is determined
by its key. -/
theorem pairwise_key_inj {α κ : Type} (f : α → κ) (l : List α)
    (h : l.Pairwise (fun a b => f a ≠ f b)) :
    ∀ a ∈ l, ∀ b ∈ l, f a = f b → a = b := by
  induction l with
  | nil => intro a ha; cases ha
  | cons x xs ih =>
    rw [List.pairwise_cons] at h
    intro a ha b hb hfab
    rcases List.mem_cons.mp ha with rfl | ha2
    · rcases List.mem_cons.mp hb with rfl | hb2
      · rfl
      · exact absurd hfab (h.1 b hb2)
    · rcases List.mem_cons.mp hb with rfl | hb2
      · exact absurd hfab.symm (h.1 a ha2)
      · exact ih h.2 a ha2 b hb2 hfab

/-! ### C1 -/

/-- C1, counterexample: the claim states that every claim/scan of a checkpoint
whose `order_index` is not the player's next required index fails with
`OutOfOrder` and leaves the store unchanged.  In the server variant,
`claim_tag` performs no order check at all: in state `c1DB` nothing has been
claimed (so only the order-1 tag could legally be claimed under the claim),
yet claiming the order-2 tag `"t2"` returns success and inserts its progress
row. -/
theorem server_claim_ignores_order_cex :
    Server.claim_tag c1DB "g" "p" "t2" 5 =
      Except.ok { c1DB with progress := [⟨"g", "p", "t2", 0⟩] }
    ∧ c1DB.progress = []
    ∧ c1DB.tags.map Server.Tag.order_index = [some 1, some 2] :=
  ⟨rfl, rfl, rfl⟩

/-- C1 (amended): in the backend variant, when the game resolves and is
active, the checkpoint resolves in that game, and the player's cursor row
resolves, a scan of a checkpoint whose `order_index` differs from the cursor's
`next_required` leaves the store completely unchanged (the reducer returns
silently, with no error value — the backend reducers return unit). -/
theorem backend_scan_order_enforced (db : Backend.DB) (pid : Nat)
    (gc uid tok : String) (ts : Nat) (g : Backend.Game) (cp : Backend.Checkpoint)
    (pg : Backend.PlayerGame)
    (hg : db.games.find? (fun x => x.code == gc) = some g)
    (ha : g.is_active = true)
    (hcp : db.checkpoints.find? (fun c => c.game_id == g.game_id && c.nfc_uid == uid) = some cp)
    (hpg : db.player_games.find? (fun x => x.player_id == pid && x.game_id == g.game_id) = some pg)
    (hord : cp.order_index ≠ pg.next_required) :
    Backend.scan_checkpoint db pid gc uid tok ts = db := by
  unfold Backend.scan_checkpoint
  simp only [hg, ha, hcp, hpg]
  simp [hord]

/-- C1 witness: a concrete out-of-order scan (checkpoint of order 2 while the
cursor requires 1) is a no-op. -/
theorem backend_scan_order_enforced_witness :
    Backend.scan_checkpoint
      ⟨[⟨1, "GAME0001", "hunt", 0, true⟩], [⟨1, "alice", 0⟩], [⟨1, 1, 1, 0, 0, none, 1⟩],
        [⟨5, 1, "u2", "loc2", 2, 0⟩], []⟩ 1 "GAME0001" "u2" "tok" 9 =
      ⟨[⟨1, "GAME0001", "hunt", 0, true⟩], [⟨1, "alice", 0⟩], [⟨1, 1, 1, 0, 0, none, 1⟩],
        [⟨5, 1, "u2", "loc2", 2, 0⟩], []⟩ :=
  backend_scan_order_enforced _ 1 "GAME0001" "u2" "tok" 9
    ⟨1, "GAME0001", "hunt", 0, true⟩ ⟨5, 1, "u2", "loc2", 2, 0⟩ ⟨1, 1, 1, 0, 0, none, 1⟩
    rfl rfl rfl rfl (by decide)

/-! ### C2 -/

/-- Every element of a filtered list still satisfies the filter predicate. -/
theorem filter_all_self {α : Type} (p : α → Bool) (l : List α) :
    (l.filter p).all p = true := by
  rw [List.all_eq_true]
  intro a ha
  exact (List.mem_filter.mp ha).2

/-- C2: a successful backend scan (game active, checkpoint resolved and next in
order, not yet scanned, scan id fresh) produces, in one step, exactly one new
scan event carrying the context timestamp, and the one cursor row for this
player and game now has `checkpoints_scanned` incremented by exactly 1,
`last_scan_at = some ts` and `next_required` advanced by exactly 1; games,
players and checkpoints are untouched.  Both writes are components of the
single resulting state — there is no state with the scan event but a stale
cursor or vice versa. -/
theorem backend_scan_success_atomic (db : Backend.DB) (pid : Nat)
    (gc uid tok : String) (ts : Nat) (g : Backend.Game) (cp : Backend.Checkpoint)
    (pg : Backend.PlayerGame)
    (hg : db.games.find? (fun x => x.code == gc) = some g)
    (ha : g.is_active = true)
    (hcp : db.checkpoints.find? (fun c => c.game_id == g.game_id && c.nfc_uid == uid) = some cp)
    (hpg : db.player_games.find? (fun x => x.player_id == pid && x.game_id == g.game_id) = some pg)
    (hord : cp.order_index = pg.next_required)
    (hnew : (db.scan_events.any (fun se => se.game_id == g.game_id && se.player_id == pid &&
        se.checkpoint_id == cp.checkpoint_id)) = false)
    (hfresh : (db.scan_events.all (fun se => se.scan_id != db.scan_events.length + 1)) = true)
    (hcs : pg.checkpoints_scanned + 1 < Backend.u32Mod)
    (hnr : pg.next_required + 1 < Backend.u32Mod) :
    Backend.scan_checkpoint db pid gc uid tok ts =
      { db with
          scan_events := db.scan_events ++
            [⟨db.scan_events.length + 1, g.game_id, pid, cp.checkpoint_id, ts, tok⟩],
          player_games :=
            db.player_games.filter (fun x => x.player_game_id != pg.player_game_id) ++
              [⟨pg.player_game_id, pg.player_id, pg.game_id, pg.joined_at,
                pg.checkpoints_scanned + 1, some ts, pg.next_required + 1⟩] } := by
  unfold Backend.scan_checkpoint
  simp only [hg, ha, hcp, hpg, hord, hnew, hfresh]
  rw [Nat.mod_eq_of_lt hcs, Nat.mod_eq_of_lt hnr]
  simp [filter_all_self]

/-- C2 witness: scanning the order-1 checkpoint with a fresh cursor records the
scan at the context time 9 and advances the cursor to 2. -/
theorem backend_scan_success_atomic_witness :
    Backend.scan_checkpoint
      ⟨[⟨1, "GAME0001", "hunt", 0, true⟩], [⟨1, "alice", 0⟩], [⟨1, 1, 1, 0, 0, none, 1⟩],
        [⟨1, 1, "u1", "loc", 1, 0⟩], []⟩ 1 "GAME0001" "u1" "tok" 9 =
      ⟨[⟨1, "GAME0001", "hunt", 0, true⟩], [⟨1, "alice", 0⟩], [⟨1, 1, 1, 0, 1, some 9, 2⟩],
        [⟨1, 1, "u1", "loc", 1, 0⟩], [⟨1, 1, 1, 1, 9, "tok"⟩]⟩ := by
  have h := backend_scan_success_atomic
    ⟨[⟨1, "GAME0001", "hunt", 0, true⟩], [⟨1, "alice", 0⟩], [⟨1, 1, 1, 0, 0, none, 1⟩],
      [⟨1, 1, "u1", "loc", 1, 0⟩], []⟩ 1 "GAME0001" "u1" "tok" 9
    ⟨1, "GAME0001", "hunt", 0, true⟩ ⟨1, 1, "u1", "loc", 1, 0⟩ ⟨1, 1, 1, 0, 0, none, 1⟩
    rfl rfl rfl rfl rfl rfl rfl (by decide) (by decide)
  exact h

/-! ### C3 -/

/-- C3: re-claiming an already-claimed checkpoint is an idempotent success in
both variants.  Server: when the game is active, the tag active and in the
game, and the `(game, player, tag)` progress row already exists, `claim_tag`
returns `Ok` with the state unchanged (no new progress row, nothing counted
twice).  Backend: when the lookups resolve and a scan event for this
`(game, player, checkpoint)` already exists, `scan_checkpoint` leaves the
state unchanged (the reducer returns unit, i.e. success — either the cursor
has moved past this checkpoint and the order check bails out, or the
already-scanned check does). -/
theorem claim_replay_idempotent :
    (∀ (db : Server.DB) (gid pid tid : String) (ts : Int) (g : Server.Game) (t : Server.Tag),
      db.games.find? (fun x => x.game_id == gid) = some g → g.status = "active" →
      db.tags.find? (fun x => x.tag_id == tid) = some t → t.is_active = true →
      t.game_id = gid →
      (db.progress.find? (fun p =>
        p.game_id == gid && p.player_id == pid && p.tag_id == tid)).isSome = true →
      Server.claim_tag db gid pid tid ts = Except.ok db)
    ∧ (∀ (db : Backend.DB) (pid : Nat) (gc uid tok : String) (ts : Nat)
        (g : Backend.Game) (cp : Backend.Checkpoint) (pg : Backend.PlayerGame),
      db.games.find? (fun x => x.code == gc) = some g → g.is_active = true →
      db.checkpoints.find? (fun c => c.game_id == g.game_id && c.nfc_uid == uid) = some cp →
      db.player_games.find? (fun x => x.player_id == pid && x.game_id == g.game_id) = some pg →
      (db.scan_events.any (fun se => se.game_id == g.game_id && se.player_id == pid &&
          se.checkpoint_id == cp.checkpoint_id)) = true →
      Backend.scan_checkpoint db pid gc uid tok ts = db) := by
  constructor
  · intro db gid pid tid ts g t hg hst ht hta htg htr
    have hpk : (db.progress.find? (fun p => p.game_id == gid)).isSome = true := by
      rw [List.find?_isSome] at htr ⊢
      obtain ⟨p, hp, hpred⟩ := htr
      simp only [Bool.and_eq_true] at hpred
      exact ⟨p, hp, hpred.1.1⟩
    unfold Server.claim_tag
    simp only [hg, ht, hst, hta, htg]
    simp [hpk, htr]
  · intro db pid gc uid tok ts g cp pg hg ha hcp hpg hscan
    unfold Backend.scan_checkpoint
    simp only [hg, ha, hcp, hpg]
    by_cases hord : cp.order_index = pg.next_required
    · simp [hord, hscan]
    · simp [hord]

/-- C3 witness: a second server claim of an already-claimed tag is an exact
no-op success, and a second backend scan of an already-scanned checkpoint is
an exact no-op. -/
theorem claim_replay_idempotent_witness :
    Server.claim_tag ⟨[⟨"g", "active", some 0, none⟩], [⟨"t", "g", true, none, some 1⟩],
        [], [⟨"g", "p", "t", 0⟩]⟩ "g" "p" "t" 5 =
      Except.ok ⟨[⟨"g", "active", some 0, none⟩], [⟨"t", "g", true, none, some 1⟩],
        [], [⟨"g", "p", "t", 0⟩]⟩
    ∧ Backend.scan_checkpoint
        ⟨[⟨1, "GAME0001", "hunt", 0, true⟩], [⟨1, "alice", 0⟩], [⟨1, 1, 1, 0, 1, some 3, 2⟩],
          [⟨1, 1, "u1", "loc", 1, 0⟩], [⟨1, 1, 1, 1, 3, "tok"⟩]⟩ 1 "GAME0001" "u1" "tok2" 9 =
      ⟨[⟨1, "GAME0001", "hunt", 0, true⟩], [⟨1, "alice", 0⟩], [⟨1, 1, 1, 0, 1, some 3, 2⟩],
        [⟨1, 1, "u1", "loc", 1, 0⟩], [⟨1, 1, 1, 1, 3, "tok"⟩]⟩ :=
  ⟨claim_replay_idempotent.1 _ "g" "p" "t" 5 ⟨"g", "active", some 0, none⟩
      ⟨"t", "g", true, none, some 1⟩ rfl rfl rfl rfl rfl rfl,
    claim_replay_idempotent.2 _ 1 "GAME0001" "u1" "tok2" 9 ⟨1, "GAME0001", "hunt", 0, true⟩
      ⟨1, 1, "u1", "loc", 1, 0⟩ ⟨1, 1, 1, 0, 1, some 3, 2⟩ rfl rfl rfl rfl rfl⟩

/-! ### C4 machinery: the server game lifecycle -/

theorem server_applyOp_games_eq (db : Server.DB) (op : Server.Op)
    (h : ∀ d, Server.exec db op = Except.ok d → d.games = db.games) :
    (Server.applyOp db op).games = db.games := by
  unfold Server.applyOp
  split
  next d heq => exact h d heq
  next => rfl

theorem activate_tag_games_ok (db : Server.DB) (gid tid : String) (c : Option String)
    (oi : Option Int) :
    ∀ d, Server.activate_tag db gid tid c oi = Except.ok d → d.games = db.games := by
  intro d h
  unfold Server.activate_tag at h
  repeat' split at h
  all_goals first
    | (cases h; rfl)
    | exact Except.noConfusion h

theorem upsert_player_games_ok (db : Server.DB) (pid n : String) (team : Option String) :
    ∀ d, Server.upsert_player db pid n team = Except.ok d → d.games = db.games := by
  intro d h
  unfold Server.upsert_player at h
  repeat' split at h
  all_goals first
    | (cases h; rfl)
    | exact Except.noConfusion h

theorem claim_tag_games_ok (db : Server.DB) (gid pid tid : String) (ts : Int) :
    ∀ d, Server.claim_tag db gid pid tid ts = Except.ok d → d.games = db.games := by
  intro d h
  unfold Server.claim_tag at h
  repeat' split at h
  all_goals first
    | (cases h; rfl)
    | exact Except.noConfusion h

theorem delete_tag_games_ok (db : Server.DB) (gid tid : String) :
    ∀ d, Server.delete_tag db gid tid = Except.ok d → d.games = db.games := by
  intro d h
  unfold Server.delete_tag at h
  repeat' split at h
  all_goals first
    | (cases h; dsimp only; (repeat' split) <;> rfl)
    | exact Except.noConfusion h

theorem delete_player_games_ok (db : Server.DB) (gid pid : String) :
    ∀ d, Server.delete_player db gid pid = Except.ok d → d.games = db.games := by
  intro d h
  unfold Server.delete_player at h
  repeat' split at h
  all_goals first
    | (cases h; rfl)
    | exact Except.noConfusion h

theorem delete_progress_games_ok (db : Server.DB) (gid pid tid : String) :
    ∀ d, Server.delete_progress db gid pid tid = Except.ok d → d.games = db.games := by
  intro d h
  unfold Server.delete_progress at h
  repeat' split at h
  all_goals first
    | (cases h; rfl)
    | exact Except.noConfusion h

/-- A mapping that preserves `game_id` preserves key-distinctness. -/
theorem pairwise_map_id_preserving (l : List Server.Game) (f : Server.Game → Server.Game)
    (hid : ∀ x, (f x).game_id = x.game_id)
    (h : l.Pairwise (fun a b => a.game_id ≠ b.game_id)) :
    (l.map f).Pairwise (fun a b => a.game_id ≠ b.game_id) := by
  rw [List.pairwise_map]
  exact h.imp (fun hab => by rw [hid, hid]; exact hab)

/-- The update functions of `start_game` and `end_game` keep each row's id. -/
theorem update_keeps_id (game upd : Server.Game) (hupd : upd.game_id = game.game_id)
    (x : Server.Game) :
    ((if x.game_id == game.game_id then upd else x)).game_id = x.game_id := by
  by_cases hx : (x.game_id == game.game_id) = true
  · rw [if_pos hx, hupd]
    exact (beq_iff_eq.mp hx).symm
  · rw [if_neg hx]

theorem server_applyOp_wf (db : Server.DB) (hwf : GamesWF db) (op : Server.Op) :
    GamesWF (Server.applyOp db op) := by
  cases op with
  | createGame gid =>
    by_cases hsome : (db.games.find? (fun g => g.game_id == gid)).isSome = true
    · have happ : Server.applyOp db (Server.Op.createGame gid) = db := by
        show (match Server.create_game db gid with
              | Except.ok d => d | Except.error _ => db) = db
        unfold Server.create_game
        simp [hsome]
      rw [happ]
      exact hwf
    · have hnone : db.games.find? (fun g => g.game_id == gid) = none :=
        Option.not_isSome_iff_eq_none.mp hsome
      have happ : Server.applyOp db (Server.Op.createGame gid) =
          { db with games := db.games ++ [⟨gid, "setup", none, none⟩] } := by
        show (match Server.create_game db gid with
              | Except.ok d => d | Except.error _ => db) = _
        unfold Server.create_game
        simp [hsome]
      rw [happ]
      show (db.games ++ [(⟨gid, "setup", none, none⟩ : Server.Game)]).Pairwise _
      rw [List.pairwise_append]
      refine ⟨hwf, List.pairwise_singleton _ _, ?_⟩
      intro a ha b hb
      rw [List.mem_singleton] at hb
      subst hb
      have := List.find?_eq_none.mp hnone a ha
      simpa using this
  | startGame gid ts =>
    rcases hfind : db.games.find? (fun g => g.game_id == gid) with _ | game
    · have happ : Server.applyOp db (Server.Op.startGame gid ts) = db := by
        show (match Server.start_game db gid ts with
              | Except.ok d => d | Except.error _ => db) = db
        unfold Server.start_game
        rw [hfind]
      rw [happ]; exact hwf
    · by_cases hstat : game.status = "setup"
      · have happ : Server.applyOp db (Server.Op.startGame gid ts) =
            { db with games := db.games.map (fun x =>
              if x.game_id == game.game_id then
                ⟨game.game_id, "active", some 0, game.ended_at⟩ else x) } := by
          show (match Server.start_game db gid ts with
                | Except.ok d => d | Except.error _ => db) = _
          unfold Server.start_game
          rw [hfind]
          simp [hstat]
        rw [happ]
        exact pairwise_map_id_preserving db.games _
          (update_keeps_id game ⟨game.game_id, "active", some 0, game.ended_at⟩ rfl) hwf
      · have happ : Server.applyOp db (Server.Op.startGame gid ts) = db := by
          show (match Server.start_game db gid ts with
                | Except.ok d => d | Except.error _ => db) = db
          unfold Server.start_game
          rw [hfind]
          simp [hstat]
        rw [happ]; exact hwf
  | endGame gid ts =>
    rcases hfind : db.games.find? (fun g => g.game_id == gid) with _ | game
    · have happ : Server.applyOp db (Server.Op.endGame gid ts) = db := by
        show (match Server.end_game db gid ts with
              | Except.ok d => d | Except.error _ => db) = db
        unfold Server.end_game
        rw [hfind]
      rw [happ]; exact hwf
    · by_cases hstat : game.status = "active"
      · have happ : Server.applyOp db (Server.Op.endGame gid ts) =
            { db with games := db.games.map (fun x =>
              if x.game_id == game.game_id then
                ⟨game.game_id, "ended", game.started_at, some 0⟩ else x) } := by
          show (match Server.end_game db gid ts with
                | Except.ok d => d | Except.error _ => db) = _
          unfold Server.end_game
          rw [hfind]
          simp [hstat]
        rw [happ]
        exact pairwise_map_id_preserving db.games _
          (update_keeps_id game ⟨game.game_id, "ended", game.started_at, some 0⟩ rfl) hwf
      · have happ : Server.applyOp db (Server.Op.endGame gid ts) = db := by
          show (match Server.end_game db gid ts with
                | Except.ok d => d | Except.error _ => db) = db
          unfold Server.end_game
          rw [hfind]
          simp [hstat]
        rw [happ]; exact hwf
  | activateTag gid tid c oi =>
    show (Server.applyOp db (Server.Op.activateTag gid tid c oi)).games.Pairwise _
    rw [server_applyOp_games_eq db (Server.Op.activateTag gid tid c oi) (activate_tag_games_ok db gid tid c oi)]
    exact hwf
  | upsertPlayer pid n team =>
    show (Server.applyOp db (Server.Op.upsertPlayer pid n team)).games.Pairwise _
    rw [server_applyOp_games_eq db (Server.Op.upsertPlayer pid n team) (upsert_player_games_ok db pid n team)]
    exact hwf
  | claimTag gid pid tid ts =>
    show (Server.applyOp db (Server.Op.claimTag gid pid tid ts)).games.Pairwise _
    rw [server_applyOp_games_eq db (Server.Op.claimTag gid pid tid ts) (claim_tag_games_ok db gid pid tid ts)]
    exact hwf
  | deleteTag gid tid =>
    show (Server.applyOp db (Server.Op.deleteTag gid tid)).games.Pairwise _
    rw [server_applyOp_games_eq db (Server.Op.deleteTag gid tid) (delete_tag_games_ok db gid tid)]
    exact hwf
  | deletePlayer gid pid =>
    show (Server.applyOp db (Server.Op.deletePlayer gid pid)).games.Pairwise _
    rw [server_applyOp_games_eq db (Server.Op.deletePlayer gid pid) (delete_player_games_ok db gid pid)]
    exact hwf
  | deleteProgress gid pid tid =>
    show (Server.applyOp db (Server.Op.deleteProgress gid pid tid)).games.Pairwise _
    rw [server_applyOp_games_eq db (Server.Op.deleteProgress gid pid tid) (delete_progress_games_ok db gid pid tid)]
    exact hwf
  | deleteGameCascade gid orph =>
    rcases hfind : db.games.find? (fun g => g.game_id == gid) with _ | game0
    · have happ : Server.applyOp db (Server.Op.deleteGameCascade gid orph) = db := by
        show (match Server.delete_game_cascade db gid orph with
              | Except.ok d => d | Except.error _ => db) = db
        unfold Server.delete_game_cascade
        rw [hfind]
        rfl
      rw [happ]; exact hwf
    · have happ : (Server.applyOp db (Server.Op.deleteGameCascade gid orph)).games =
          db.games.filter (fun x => x != game0) := by
        show (match Server.delete_game_cascade db gid orph with
              | Except.ok d => d | Except.error _ => db).games = _
        unfold Server.delete_game_cascade
        rw [hfind]
        cases orph <;> simp [hfind]
      show (Server.applyOp db (Server.Op.deleteGameCascade gid orph)).games.Pairwise _
      rw [happ]
      exact hwf.sublist (List.filter_sublist _)

theorem server_runOps_wf (ops : List Server.Op) : GamesWF (Server.runOps ops) := by
  have main : ∀ (l : List Server.Op) (db : Server.DB), GamesWF db →
      GamesWF (l.foldl Server.applyOp db) := by
    intro l
    induction l with
    | nil => intro db h; exact h
    | cons op rest ih =>
      intro db h
      rw [List.foldl_cons]
      exact ih _ (server_applyOp_wf db h op)
  exact main ops Server.emptyDB List.Pairwise.nil

/-- With distinct ids, two rows of the table with the same id are equal, so the
status is unchanged. -/
theorem status_eq_of_mem (db : Server.DB) (hwf : GamesWF db) (g g' : Server.Game)
    (hg : g ∈ db.games) (hg' : g' ∈ db.games) (hid : g'.game_id = g.game_id) :
    statusStep g.status g'.status := by
  have : g' = g := pairwise_key_inj Server.Game.game_id db.games hwf g' hg' g hg hid
  exact Or.inl (by rw [this])

/-- One reducer call moves each surviving game's status along an allowed
lifecycle edge (or leaves it unchanged). -/
theorem server_applyOp_status_mono (db : Server.DB) (hwf : GamesWF db) (op : Server.Op)
    (g g' : Server.Game) (hg : g ∈ db.games) (hg' : g' ∈ (Server.applyOp db op).games)
    (hid : g'.game_id = g.game_id) : statusStep g.status g'.status := by
  cases op with
  | createGame gid =>
    by_cases hsome : (db.games.find? (fun x => x.game_id == gid)).isSome = true
    · have happ : Server.applyOp db (Server.Op.createGame gid) = db := by
        show (match Server.create_game db gid with
              | Except.ok d => d | Except.error _ => db) = db
        unfold Server.create_game
        simp [hsome]
      rw [happ] at hg'
      exact status_eq_of_mem db hwf g g' hg hg' hid
    · have hnone : db.games.find? (fun x => x.game_id == gid) = none :=
        Option.not_isSome_iff_eq_none.mp hsome
      have happ : Server.applyOp db (Server.Op.createGame gid) =
          { db with games := db.games ++ [⟨gid, "setup", none, none⟩] } := by
        show (match Server.create_game db gid with
              | Except.ok d => d | Except.error _ => db) = _
        unfold Server.create_game
        simp [hsome]
      rw [happ] at hg'
      rcases List.mem_append.mp hg' with h1 | h1
      · exact status_eq_of_mem db hwf g g' hg h1 hid
      · rw [List.mem_singleton] at h1
        subst h1
        have := List.find?_eq_none.mp hnone g hg
        simp only [beq_iff_eq] at this
        exact absurd hid.symm this
  | startGame gid ts =>
    rcases hfind : db.games.find? (fun x => x.game_id == gid) with _ | game
    · have happ : Server.applyOp db (Server.Op.startGame gid ts) = db := by
        show (match Server.start_game db gid ts with
              | Except.ok d => d | Except.error _ => db) = db
        unfold Server.start_game
        rw [hfind]
      rw [happ] at hg'
      exact status_eq_of_mem db hwf g g' hg hg' hid
    · by_cases hstat : game.status = "setup"
      · have happ : Server.applyOp db (Server.Op.startGame gid ts) =
            { db with games := db.games.map (fun x =>
              if x.game_id == game.game_id then
                ⟨game.game_id, "active", some 0, game.ended_at⟩ else x) } := by
          show (match Server.start_game db gid ts with
                | Except.ok d => d | Except.error _ => db) = _
          unfold Server.start_game
          rw [hfind]
          simp [hstat]
        rw [happ] at hg'
        have hmem := hg'
        rw [List.mem_map] at hmem
        obtain ⟨x, hxmem, hfx⟩ := hmem
        by_cases hxg : (x.game_id == game.game_id) = true
        · rw [if_pos hxg] at hfx
          subst hfx
          have hgmem : game ∈ db.games := List.mem_of_find?_eq_some hfind
          have hgg : g = game :=
            pairwise_key_inj Server.Game.game_id db.games hwf g hg game hgmem hid.symm
          right; left
          exact ⟨by rw [hgg]; exact hstat, rfl⟩
        · rw [if_neg hxg] at hfx
          subst hfx
          exact status_eq_of_mem db hwf g x hg hxmem hid
      · have happ : Server.applyOp db (Server.Op.startGame gid ts) = db := by
          show (match Server.start_game db gid ts with
                | Except.ok d => d | Except.error _ => db) = db
          unfold Server.start_game
          rw [hfind]
          simp [hstat]
        rw [happ] at hg'
        exact status_eq_of_mem db hwf g g' hg hg' hid
  | endGame gid ts =>
    rcases hfind : db.games.find? (fun x => x.game_id == gid) with _ | game
    · have happ : Server.applyOp db (Server.Op.endGame gid ts) = db := by
        show (match Server.end_game db gid ts with
              | Except.ok d => d | Except.error _ => db) = db
        unfold Server.end_game
        rw [hfind]
      rw [happ] at hg'
      exact status_eq_of_mem db hwf g g' hg hg' hid
    · by_cases hstat : game.status = "active"
      · have happ : Server.applyOp db (Server.Op.endGame gid ts) =
            { db with games := db.games.map (fun x =>
              if x.game_id == game.game_id then
                ⟨game.game_id, "ended", game.started_at, some 0⟩ else x) } := by
          show (match Server.end_game db gid ts with
                | Except.ok d => d | Except.error _ => db) = _
          unfold Server.end_game
          rw [hfind]
          simp [hstat]
        rw [happ] at hg'
        have hmem := hg'
        rw [List.mem_map] at hmem
        obtain ⟨x, hxmem, hfx⟩ := hmem
        by_cases hxg : (x.game_id == game.game_id) = true
        · rw [if_pos hxg] at hfx
          subst hfx
          have hgmem : game ∈ db.games := List.mem_of_find?_eq_some hfind
          have hgg : g = game :=
            pairwise_key_inj Server.Game.game_id db.games hwf g hg game hgmem hid.symm
          right; right
          exact ⟨by rw [hgg]; exact hstat, rfl⟩
        · rw [if_neg hxg] at hfx
          subst hfx
          exact status_eq_of_mem db hwf g x hg hxmem hid
      · have happ : Server.applyOp db (Server.Op.endGame gid ts) = db := by
          show (match Server.end_game db gid ts with
                | Except.ok d => d | Except.error _ => db) = db
          unfold Server.end_game
          rw [hfind]
          simp [hstat]
        rw [happ] at hg'
        exact status_eq_of_mem db hwf g g' hg hg' hid
  | activateTag gid tid c oi =>
    rw [server_applyOp_games_eq db (Server.Op.activateTag gid tid c oi) (activate_tag_games_ok db gid tid c oi)] at hg'
    exact status_eq_of_mem db hwf g g' hg hg' hid
  | upsertPlayer pid n team =>
    rw [server_applyOp_games_eq db (Server.Op.upsertPlayer pid n team) (upsert_player_games_ok db pid n team)] at hg'
    exact status_eq_of_mem db hwf g g' hg hg' hid
  | claimTag gid pid tid ts =>
    rw [server_applyOp_games_eq db (Server.Op.claimTag gid pid tid ts) (claim_tag_games_ok db gid pid tid ts)] at hg'
    exact status_eq_of_mem db hwf g g' hg hg' hid
  | deleteTag gid tid =>
    rw [server_applyOp_games_eq db (Server.Op.deleteTag gid tid) (delete_tag_games_ok db gid tid)] at hg'
    exact status_eq_of_mem db hwf g g' hg hg' hid
  | deletePlayer gid pid =>
    rw [server_applyOp_games_eq db (Server.Op.deletePlayer gid pid) (delete_player_games_ok db gid pid)] at hg'
    exact status_eq_of_mem db hwf g g' hg hg' hid
  | deleteProgress gid pid tid =>
    rw [server_applyOp_games_eq db (Server.Op.deleteProgress gid pid tid) (delete_progress_games_ok db gid pid tid)] at hg'
    exact status_eq_of_mem db hwf g g' hg hg' hid
  | deleteGameCascade gid orph =>
    rcases hfind : db.games.find? (fun x => x.game_id == gid) with _ | game0
    · have happ : Server.applyOp db (Server.Op.deleteGameCascade gid orph) = db := by
        show (match Server.delete_game_cascade db gid orph with
              | Except.ok d => d | Except.error _ => db) = db
        unfold Server.delete_game_cascade
        rw [hfind]
        rfl
      rw [happ] at hg'
      exact status_eq_of_mem db hwf g g' hg hg' hid
    · have happ : (Server.applyOp db (Server.Op.deleteGameCascade gid orph)).games =
          db.games.filter (fun x => x != game0) := by
        show (match Server.delete_game_cascade db gid orph with
              | Except.ok d => d | Except.error _ => db).games = _
        unfold Server.delete_game_cascade
        rw [hfind]
        cases orph <;> simp [hfind]
      rw [happ] at hg'
      exact status_eq_of_mem db hwf g g' hg (List.mem_of_mem_filter hg') hid

/-- C4 (amended): the server variant's lifecycle is exactly the claimed
monotone state machine: `create_game` inserts a fresh game with status
`"setup"` and rejects duplicates; `start_game` succeeds exactly on status
`"setup"` (making it `"active"`), failing `InvalidState` on any other status
and `NotFound` on a missing game; `end_game` succeeds exactly on status
`"active"` (making it `"ended"`), with the analogous failures; and across any
sequence of reducer calls from the empty database, a game's status only ever
stays, moves setup → active, or moves active → ended.  (The backend variant,
by contrast, creates games already active — see the counterexample.) -/
theorem server_game_lifecycle :
    (∀ (db : Server.DB) (gid : String),
      db.games.find? (fun g => g.game_id == gid) = none →
      Server.create_game db gid =
        Except.ok { db with games := db.games ++ [⟨gid, "setup", none, none⟩] })
    ∧ (∀ (db : Server.DB) (gid : String),
      (db.games.find? (fun g => g.game_id == gid)).isSome = true →
      Server.create_game db gid = Except.error "Game with this ID already exists")
    ∧ (∀ (db : Server.DB) (gid : String) (ts : Int) (g : Server.Game),
      db.games.find? (fun x => x.game_id == gid) = some g → g.status = "setup" →
      Server.start_game db gid ts =
        Except.ok { db with games := db.games.map (fun x =>
          if x.game_id == g.game_id then ⟨g.game_id, "active", some 0, g.ended_at⟩ else x) })
    ∧ (∀ (db : Server.DB) (gid : String) (ts : Int) (g : Server.Game),
      db.games.find? (fun x => x.game_id == gid) = some g → g.status ≠ "setup" →
      Server.start_game db gid ts = Except.error "Game is not in setup status")
    ∧ (∀ (db : Server.DB) (gid : String) (ts : Int),
      db.games.find? (fun x => x.game_id == gid) = none →
      Server.start_game db gid ts = Except.error "Game not found")
    ∧ (∀ (db : Server.DB) (gid : String) (ts : Int) (g : Server.Game),
      db.games.find? (fun x => x.game_id == gid) = some g → g.status = "active" →
      Server.end_game db gid ts =
        Except.ok { db with games := db.games.map (fun x =>
          if x.game_id == g.game_id then ⟨g.game_id, "ended", g.started_at, some 0⟩ else x) })
    ∧ (∀ (db : Server.DB) (gid : String) (ts : Int) (g : Server.Game),
      db.games.find? (fun x => x.game_id == gid) = some g → g.status ≠ "active" →
      Server.end_game db gid ts = Except.error "Game is not active")
    ∧ (∀ (db : Server.DB) (gid : String) (ts : Int),
      db.games.find? (fun x => x.game_id == gid) = none →
      Server.end_game db gid ts = Except.error "Game not found")
    ∧ (∀ (ops : List Server.Op) (op : Server.Op) (g g' : Server.Game),
      g ∈ (Server.runOps ops).games → g' ∈ (Server.runOps (ops ++ [op])).games →
      g'.game_id = g.game_id → statusStep g.status g'.status) := by
  refine ⟨?_, ?_, ?_, ?_, ?_, ?_, ?_, ?_, ?_⟩
  · intro db gid h
    unfold Server.create_game
    simp [h]
  · intro db gid h
    unfold Server.create_game
    simp [h]
  · intro db gid ts g hfind hst
    unfold Server.start_game
    rw [hfind]
    simp [hst]
  · intro db gid ts g hfind hst
    unfold Server.start_game
    rw [hfind]
    simp [hst]
  · intro db gid ts hfind
    unfold Server.start_game
    rw [hfind]
  · intro db gid ts g hfind hst
    unfold Server.end_game
    rw [hfind]
    simp [hst]
  · intro db gid ts g hfind hst
    unfold Server.end_game
    rw [hfind]
    simp [hst]
  · intro db gid ts hfind
    unfold Server.end_game
    rw [hfind]
  · intro ops op g g' hg hg' hid
    have hrun : Server.runOps (ops ++ [op]) = Server.applyOp (Server.runOps ops) op := by
      unfold Server.runOps
      rw [List.foldl_append]
      rfl
    rw [hrun] at hg'
    exact server_applyOp_status_mono (Server.runOps ops) (server_runOps_wf ops) op g g' hg hg' hid

/-- C4 witness: the lifecycle theorem at concrete inputs — creating `"g1"` in
the empty database yields a setup game, starting it activates it, and across
the concrete run create-then-start the surviving game made an allowed step. -/
theorem server_game_lifecycle_witness :
    Server.create_game Server.emptyDB "g1" =
      Except.ok { Server.emptyDB with
        games := Server.emptyDB.games ++ [⟨"g1", "setup", none, none⟩] }
    ∧ Server.start_game ⟨[⟨"g1", "setup", none, none⟩], [], [], []⟩ "g1" 7 =
      Except.ok { (⟨[⟨"g1", "setup", none, none⟩], [], [], []⟩ : Server.DB) with
        games := [⟨"g1", "setup", none, none⟩].map (fun x =>
          if x.game_id == "g1" then ⟨"g1", "active", some 0, none⟩ else x) }
    ∧ statusStep "setup" "active" :=
  ⟨server_game_lifecycle.1 Server.emptyDB "g1" rfl,
    server_game_lifecycle.2.2.1 ⟨[⟨"g1", "setup", none, none⟩], [], [], []⟩ "g1" 7
      ⟨"g1", "setup", none, none⟩ rfl rfl,
    server_game_lifecycle.2.2.2.2.2.2.2.2
      [Server.Op.createGame "g1"] (Server.Op.startGame "g1" 7)
      ⟨"g1", "setup", none, none⟩ ⟨"g1", "active", some 0, none⟩
      (by decide) (by decide) rfl⟩

/-! ### C4 counterexample -/

/-- C4, counterexample: the claim states a newly created game has status
`setup`.  The backend variant's `create_game` creates the game with
`is_active = true` — it is immediately active, there is no setup phase and no
start/end transition in that module. -/
theorem backend_create_game_active_cex :
    (Backend.create_game Backend.emptyDB "hunt" 5).games.map Backend.Game.is_active =
      [true] := rfl

/-! ### C7 counterexample -/

/-- C7, counterexample: the claim states `activate_tag` replaces an existing
checkpoint, discarding every field not supplied in the new call.  The code
merges instead: reactivating tag `"t"` with `clue = none` and
`order_index = none` keeps the old `some "old clue"` and `some 3` rather than
discarding them. -/
theorem activate_tag_merge_cex :
    Server.activate_tag c7DB "g" "t" none none =
      Except.ok { c7DB with tags := [⟨"t", "g", true, some "old clue", some 3⟩] }
    ∧ (⟨"t", "g", true, some "old clue", some 3⟩ : Server.Tag).clue ≠ none :=
  ⟨rfl, by decide⟩

/-! ### C5 -/

/-- C5: `delete_game_cascade` on an existing game deletes, in one atomic step,
the game row, every tag of that game and every progress row referencing it;
with `delete_orphan_players = true` it additionally deletes exactly those
players with no remaining progress row in any game (players still referenced
by some progress row survive); the deleted game id no longer resolves, and no
tag or progress row of the game remains. -/
theorem delete_game_cascade_spec (db : Server.DB) (gid : String) (orph : Bool)
    (g0 : Server.Game)
    (hfind : db.games.find? (fun g => g.game_id == gid) = some g0)
    (hwf : db.games.Pairwise (fun a b => a.game_id ≠ b.game_id)) :
    ∃ db2, Server.delete_game_cascade db gid orph = Except.ok db2
      ∧ db2.games = db.games.filter (fun g => g.game_id != gid)
      ∧ db2.tags = db.tags.filter (fun t => t.game_id != gid)
      ∧ db2.progress = db.progress.filter (fun p => p.game_id != gid)
      ∧ (orph = false → db2.players = db.players)
      ∧ (orph = true → ∀ pl, pl ∈ db2.players ↔
          pl ∈ db.players ∧ ∃ pr ∈ db2.progress, pr.player_id = pl.player_id)
      ∧ db2.games.find? (fun g => g.game_id == gid) = none
      ∧ (∀ t ∈ db2.tags, t.game_id ≠ gid)
      ∧ (∀ p ∈ db2.progress, p.game_id ≠ gid) := by
  have hg0mem : g0 ∈ db.games := List.mem_of_find?_eq_some hfind
  have hg0id : g0.game_id = gid := by simpa using List.find?_some hfind
  have hgames : db.games.filter (fun g => g != g0) =
      db.games.filter (fun g => g.game_id != gid) := by
    apply List.filter_congr
    intro g hgmem
    have hiff : g = g0 ↔ g.game_id = gid := by
      constructor
      · intro h; rw [h]; exact hg0id
      · intro h
        exact pairwise_key_inj Server.Game.game_id db.games hwf g hgmem g0 hg0mem
          (h.trans hg0id.symm)
    rw [Bool.eq_iff_iff, bne_iff_ne, bne_iff_ne]
    exact not_congr hiff
  have hres : Server.delete_game_cascade db gid orph = Except.ok
      ⟨db.games.filter (fun g => g != g0),
        db.tags.filter (fun t => t.game_id != gid),
        (if orph then
          db.players.filter (fun pl =>
            (db.progress.filter (fun p => p.game_id != gid)).any
              (fun p => p.player_id == pl.player_id))
        else db.players),
        db.progress.filter (fun p => p.game_id != gid)⟩ := by
    unfold Server.delete_game_cascade
    simp only [hfind, Option.isNone_some, Bool.false_eq_true, if_false]
    cases orph <;> simp
  refine ⟨_, hres, ?_, rfl, rfl, ?_, ?_, ?_, ?_, ?_⟩
  · exact hgames
  · intro ho; subst ho; rfl
  · intro ho; subst ho
    intro pl
    simp only [if_true]
    rw [List.mem_filter]
    simp only [List.any_eq_true, beq_iff_eq, List.mem_filter, bne_iff_ne, ne_eq,
      decide_eq_true_eq]
  · show (db.games.filter (fun g => g != g0)).find? (fun g => g.game_id == gid) = none
    rw [hgames, List.find?_eq_none]
    intro x hx
    have hne := (List.mem_filter.mp hx).2
    rw [bne_iff_ne] at hne
    simp [hne]
  · intro t ht
    have hne := (List.mem_filter.mp ht).2
    rw [bne_iff_ne] at hne
    exact hne
  · intro p hp
    have hne := (List.mem_filter.mp hp).2
    rw [bne_iff_ne] at hne
    exact hne

/-- C5 witness: deleting game `"g"` with orphan cleanup removes its tag and
progress rows and the now-orphaned player `"q"`, while player `"p"` (still
referenced by progress in game `"h"`) survives. -/
theorem delete_game_cascade_spec_witness :
    ∃ db2, Server.delete_game_cascade
        ⟨[⟨"g", "active", some 0, none⟩, ⟨"h", "active", some 0, none⟩],
          [⟨"t", "g", true, none, some 1⟩, ⟨"s", "h", true, none, some 1⟩],
          [⟨"p", "alice", none⟩, ⟨"q", "bob", none⟩],
          [⟨"g", "q", "t", 0⟩, ⟨"h", "p", "s", 0⟩]⟩ "g" true = Except.ok db2
      ∧ db2.games = List.filter (fun g => g.game_id != "g")
          [⟨"g", "active", some 0, none⟩, ⟨"h", "active", some 0, none⟩]
      ∧ db2.tags = List.filter (fun t => t.game_id != "g")
          [⟨"t", "g", true, none, some 1⟩, ⟨"s", "h", true, none, some 1⟩]
      ∧ db2.progress = List.filter (fun p => p.game_id != "g")
          [⟨"g", "q", "t", 0⟩, ⟨"h", "p", "s", 0⟩]
      ∧ (true = false → db2.players = [⟨"p", "alice", none⟩, ⟨"q", "bob", none⟩])
      ∧ (true = true → ∀ pl, pl ∈ db2.players ↔
          pl ∈ [⟨"p", "alice", none⟩, ⟨"q", "bob", none⟩]
            ∧ ∃ pr ∈ db2.progress, pr.player_id = pl.player_id)
      ∧ db2.games.find? (fun g => g.game_id == "g") = none
      ∧ (∀ t ∈ db2.tags, t.game_id ≠ "g")
      ∧ (∀ p ∈ db2.progress, p.game_id ≠ "g") :=
  delete_game_cascade_spec _ "g" true ⟨"g", "active", some 0, none⟩ rfl
    (by simp)

/-- C7 (amended): `activate_tag` is an upsert-by-merge.  On an existing tag it
sets `is_active = true`, keeps `tag_id` and `game_id` from the existing row,
and takes each optional field from the call only when supplied, otherwise
retaining the existing value (`Option::or`); in particular reactivating with
no fields supplied preserves the old `clue` and `order_index`.  A missing tag
is inserted fresh as active with the given attributes. -/
theorem activate_tag_upsert_merge :
    (∀ (db : Server.DB) (gid tid : String) (clue : Option String) (oi : Option Int)
        (t0 : Server.Tag),
      (db.games.find? (fun g => g.game_id == gid)).isSome = true →
      db.tags.find? (fun t => t.tag_id == tid) = some t0 →
      Server.activate_tag db gid tid clue oi =
        Except.ok { db with tags := db.tags.map (fun t =>
          if t.tag_id == t0.tag_id then
            ⟨t0.tag_id, t0.game_id, true, clue.or t0.clue, oi.or t0.order_index⟩
          else t) })
    ∧ (∀ (db : Server.DB) (gid tid : String) (clue : Option String) (oi : Option Int),
      (db.games.find? (fun g => g.game_id == gid)).isSome = true →
      db.tags.find? (fun t => t.tag_id == tid) = none →
      Server.activate_tag db gid tid clue oi =
        Except.ok { db with tags := db.tags ++ [⟨tid, gid, true, clue, oi⟩] })
    ∧ (∀ (db : Server.DB) (gid tid : String) (t0 : Server.Tag),
      (db.games.find? (fun g => g.game_id == gid)).isSome = true →
      db.tags.find? (fun t => t.tag_id == tid) = some t0 →
      ∃ db2, Server.activate_tag db gid tid none none = Except.ok db2 ∧
        ∃ t2 ∈ db2.tags, t2.tag_id = t0.tag_id ∧ t2.game_id = t0.game_id ∧
          t2.is_active = true ∧ t2.clue = t0.clue ∧ t2.order_index = t0.order_index) := by
  have hnone : ∀ (db : Server.DB) (gid : String),
      (db.games.find? (fun g => g.game_id == gid)).isSome = true →
      (db.games.find? (fun g => g.game_id == gid)).isNone = false := by
    intro db gid h
    obtain ⟨x, hx⟩ := Option.isSome_iff_exists.mp h
    rw [hx]
    rfl
  have hA : ∀ (db : Server.DB) (gid tid : String) (clue : Option String) (oi : Option Int)
      (t0 : Server.Tag),
      (db.games.find? (fun g => g.game_id == gid)).isSome = true →
      db.tags.find? (fun t => t.tag_id == tid) = some t0 →
      Server.activate_tag db gid tid clue oi =
        Except.ok { db with tags := db.tags.map (fun t =>
          if t.tag_id == t0.tag_id then
            ⟨t0.tag_id, t0.game_id, true, clue.or t0.clue, oi.or t0.order_index⟩
          else t) } := by
    intro db gid tid clue oi t0 hg ht
    unfold Server.activate_tag
    rw [hnone db gid hg, ht]
    simp
  refine ⟨hA, ?_, ?_⟩
  · intro db gid tid clue oi hg ht
    unfold Server.activate_tag
    rw [hnone db gid hg, ht]
    simp
  · intro db gid tid t0 hg ht
    refine ⟨_, hA db gid tid none none t0 hg ht, ?_⟩
    refine ⟨⟨t0.tag_id, t0.game_id, true, t0.clue, t0.order_index⟩, ?_, rfl, rfl, rfl, rfl, rfl⟩
    have hmem : t0 ∈ db.tags := List.mem_of_find?_eq_some ht
    have himg := List.mem_map_of_mem (fun t : Server.Tag =>
      if t.tag_id == t0.tag_id then
        (⟨t0.tag_id, t0.game_id, true, Option.or none t0.clue,
          Option.or none t0.order_index⟩ : Server.Tag)
      else t) hmem
    simpa using himg

/-- C7 witness: merging upsert on a concrete state — reactivating the existing
tag with no fields supplied keeps the old clue and order index. -/
theorem activate_tag_upsert_merge_witness :
    ∃ db2, Server.activate_tag c7DB "g" "t" none none = Except.ok db2 ∧
      ∃ t2 ∈ db2.tags, t2.tag_id = "t" ∧ t2.game_id = "g" ∧
        t2.is_active = true ∧ t2.clue = some "old clue" ∧ t2.order_index = some 3 :=
  activate_tag_upsert_merge.2.2 c7DB "g" "t"
    ⟨"t", "g", false, some "old clue", some 3⟩ rfl rfl

/-! ### C6 -/

theorem create_game_checkpoints (db : Backend.DB) (n : String) (ts : Nat) :
    (Backend.create_game db n ts).checkpoints = db.checkpoints := by
  unfold Backend.create_game
  dsimp only
  split <;> rfl

theorem join_game_checkpoints (db : Backend.DB) (gc dn : String) (ts : Nat) :
    (Backend.join_game db gc dn ts).checkpoints = db.checkpoints := by
  unfold Backend.join_game
  dsimp only
  repeat' split
  all_goals rfl

theorem scan_checkpoint_checkpoints (db : Backend.DB) (pid : Nat)
    (gc uid tok : String) (ts : Nat) :
    (Backend.scan_checkpoint db pid gc uid tok ts).checkpoints = db.checkpoints := by
  unfold Backend.scan_checkpoint
  dsimp only
  repeat' split
  all_goals rfl

theorem register_checkpoint_preserves (db : Backend.DB)
    (h : CheckpointInv db.checkpoints) (gc uid ln : String) (oi ts : Nat) :
    CheckpointInv (Backend.register_checkpoint db gc uid ln oi ts).checkpoints := by
  unfold Backend.register_checkpoint
  split
  · exact h
  next hoi =>
    split
    · exact h
    next game hgame =>
      split
      next hdup => exact h
      next hdup =>
        dsimp only
        split
        next hfresh =>
          obtain ⟨hpw, hge⟩ := h
          simp only [List.any_eq_true, not_exists, not_and, Bool.and_eq_true,
            Bool.or_eq_true, beq_iff_eq, not_or] at hdup
          constructor
          · rw [List.pairwise_append]
            refine ⟨hpw, List.pairwise_singleton _ _, ?_⟩
            intro a ha b hb
            rw [List.mem_singleton] at hb
            subst hb
            intro hgid
            exact hdup a ha hgid
          · intro c hc
            rcases List.mem_append.mp hc with h1 | h1
            · exact hge c h1
            · rw [List.mem_singleton] at h1
              subst h1
              exact Nat.one_le_iff_ne_zero.mpr hoi
        next hfresh => exact h

theorem backend_applyOp_preserves (db : Backend.DB) (h : CheckpointInv db.checkpoints)
    (op : Backend.Op) : CheckpointInv (Backend.applyOp db op).checkpoints := by
  cases op with
  | createGame n ts =>
    show CheckpointInv (Backend.create_game db n ts).checkpoints
    rw [create_game_checkpoints]
    exact h
  | registerCheckpoint gc uid ln oi ts =>
    exact register_checkpoint_preserves db h gc uid ln oi ts
  | joinGame gc dn ts =>
    show CheckpointInv (Backend.join_game db gc dn ts).checkpoints
    rw [join_game_checkpoints]
    exact h
  | scanCheckpoint pid gc uid tok ts =>
    show CheckpointInv (Backend.scan_checkpoint db pid gc uid tok ts).checkpoints
    rw [scan_checkpoint_checkpoints]
    exact h

theorem backend_runOps_inv (ops : List Backend.Op) :
    CheckpointInv (Backend.runOps ops).checkpoints := by
  have main : ∀ (l : List Backend.Op) (db : Backend.DB), CheckpointInv db.checkpoints →
      CheckpointInv ((l.foldl Backend.applyOp db).checkpoints) := by
    intro l
    induction l with
    | nil => intro db h; exact h
    | cons op rest ih =>
      intro db h
      rw [List.foldl_cons]
      exact ih _ (backend_applyOp_preserves db h op)
  exact main ops Backend.emptyDB ⟨List.Pairwise.nil, by intro c hc; cases hc⟩

/-- C6: in every state reachable by backend reducer calls from an empty
database, no two checkpoints of one game share an `nfc_uid` or an
`order_index`, and every checkpoint has `order_index ≥ 1`.
`register_checkpoint` maintains this by silently doing nothing when
`order_index = 0`, when the game code does not resolve, or when a checkpoint
of the same game already uses the `nfc_uid` or the `order_index`. -/
theorem checkpoint_uniqueness_invariant :
    (∀ ops : List Backend.Op, CheckpointInv (Backend.runOps ops).checkpoints)
    ∧ (∀ (db : Backend.DB) (gc uid ln : String) (ts : Nat),
        Backend.register_checkpoint db gc uid ln 0 ts = db)
    ∧ (∀ (db : Backend.DB) (gc uid ln : String) (oi ts : Nat),
        db.games.find? (fun g => g.code == gc) = none →
        Backend.register_checkpoint db gc uid ln oi ts = db)
    ∧ (∀ (db : Backend.DB) (gc uid ln : String) (oi ts : Nat) (g : Backend.Game),
        db.games.find? (fun x => x.code == gc) = some g →
        (db.checkpoints.any (fun cp => cp.game_id == g.game_id &&
          (cp.nfc_uid == uid || cp.order_index == oi))) = true →
        Backend.register_checkpoint db gc uid ln oi ts = db) := by
  refine ⟨backend_runOps_inv, ?_, ?_, ?_⟩
  · intro db gc uid ln ts
    rfl
  · intro db gc uid ln oi ts hnone
    unfold Backend.register_checkpoint
    split
    · rfl
    · rw [hnone]
  · intro db gc uid ln oi ts g hfind hdup
    unfold Backend.register_checkpoint
    split
    · rfl
    · rw [hfind]
      simp [hdup]

/-- C6 witness: the invariant holds after a concrete run (create a game, then
register two checkpoints, the second a rejected duplicate order), and a
duplicate registration on a concrete state is a no-op. -/
theorem checkpoint_uniqueness_invariant_witness :
    CheckpointInv (Backend.runOps
      [Backend.Op.createGame "hunt" 0,
       Backend.Op.registerCheckpoint "GAME0001" "u1" "loc1" 1 0,
       Backend.Op.registerCheckpoint "GAME0001" "u2" "loc2" 1 0]).checkpoints
    ∧ Backend.register_checkpoint
        ⟨[⟨1, "GAME0001", "hunt", 0, true⟩], [], [], [⟨1, 1, "u1", "loc1", 1, 0⟩], []⟩
        "GAME0001" "u1" "other" 2 7 =
      ⟨[⟨1, "GAME0001", "hunt", 0, true⟩], [], [], [⟨1, 1, "u1", "loc1", 1, 0⟩], []⟩ :=
  ⟨checkpoint_uniqueness_invariant.1 _,
    checkpoint_uniqueness_invariant.2.2.2 _ "GAME0001" "u1" "other" 2 7
      ⟨1, "GAME0001", "hunt", 0, true⟩ rfl rfl⟩

/-! ### C8 -/

/-- C8: game codes are claimed to come from a monotonic counter independent of
the row count.  `generate_unique_code` is computed from the row count
(`count + 1`): in a state where the first of two games was deleted (one
remaining row with code `"GAME0002"`), the next generated code is `"GAME0002"`
again — a duplicate of an existing code, not a fresh monotonically increasing
one.  The subsequent `create_game` then silently inserts nothing, since both
the generated id and code collide. -/
theorem generate_code_row_count_collision :
    Backend.generate_unique_code c8DB = "GAME0002"
    ∧ c8DB.games.map Backend.Game.code = ["GAME0002"]
    ∧ Backend.create_game c8DB "hunt3" 9 = c8DB :=
  ⟨rfl, rfl, rfl⟩

/-! ### C9 -/

/-- C9: the claim states every timestamp the core writes is the one supplied by
the execution context, never the sentinel `0`.  The server variant hardcodes
`0`: with context timestamp `777`, `start_game` writes `started_at = some 0`,
`end_game` writes `ended_at = some 0`, and `claim_tag` records `ts = 0`. -/
theorem server_timestamps_sentinel_zero :
    Server.start_game c9Setup "g" 777 =
      Except.ok { c9Setup with games := [⟨"g", "active", some 0, none⟩] }
    ∧ Server.end_game c9Active "g" 777 =
      Except.ok { c9Active with games := [⟨"g", "ended", some 0, some 0⟩] }
    ∧ Server.claim_tag c9Active "g" "p" "t" 777 =
      Except.ok { c9Active with progress := [⟨"g", "p", "t", 0⟩] }
    ∧ (777 : Int) ≠ 0 :=
  ⟨rfl, rfl, rfl, by decide⟩

/-! ### C10 -/

/-- C10: the backend's `create_game` never reports failure: when the generated
id (row count + 1) or the generated code collides with an existing game, the
insert error is discarded by `.ok()` and the state is left unchanged — the
reducer completes as if successful (it returns unit by type) while no new game
row exists. -/
theorem backend_create_game_swallows_errors (db : Backend.DB) (name : String) (ts : Nat)
    (h : ∃ g ∈ db.games,
      g.game_id = db.games.length + 1 ∨ g.code = Backend.generate_unique_code db) :
    Backend.create_game db name ts = db := by
  obtain ⟨g, hmem, hcase⟩ := h
  unfold Backend.create_game
  rw [if_neg]
  intro hall
  unfold Backend.gameInsertOk at hall
  rw [List.all_eq_true] at hall
  have hg := hall g hmem
  simp only [Bool.and_eq_true, bne_iff_ne, ne_eq] at hg
  rcases hcase with hid | hcode
  · exact hg.1 hid
  · exact hg.2 hcode

/-- C10 witness: in `c10DB` the single game row already carries the next
generated id `2`, so `create_game` changes nothing. -/
theorem backend_create_game_swallows_errors_witness :
    Backend.create_game c10DB "fresh" 3 = c10DB :=
  backend_create_game_swallows_errors c10DB "fresh" 3
    ⟨⟨2, "GAMEX", "old", 0, true⟩, by decide, Or.inl (by decide)⟩

end Hunt
